import Mathlib

/-!
Shallow embedding of the webby daemon control plane (github.com/an-prata/webby):
the command wire protocol, the Unix-socket command listener, the daemon
command callbacks, the lifecycle loop of `DaemonMain`, the log-level
machinery of the `logger` package, and the file-change watcher of the
`server` package.  Each definition mirrors one Go function or constant
block of the sources; machine bytes are modelled as `Nat` values.
-/

namespace Webby

/-- ASCII bytes of a Go string literal, as sent over the socket. -/
def strBytes (s : String) : List Nat :=
  s.data.map Char.toNat

namespace Daemon

/-- Go `Success DaemonCommandSuccess = iota` — the command completed (byte 0). -/
def Success : Nat := 0

/-- Go `Failure` — the command failed (byte 1). -/
def Failure : Nat := 1

/-- Go `Restart = "restart"` (daemon command wire token). -/
def Restart : String := "restart"

/-- Go `Reload = "reload"`. -/
def Reload : String := "reload"

/-- Go `Stop = "stop"`. -/
def Stop : String := "stop"

/-- Go `Status = "status"`. -/
def Status : String := "status"

/-- Go `LogRecord = "log-record"`. -/
def LogRecord : String := "log-record"

/-- Go `LogPrint = "log-print"`. -/
def LogPrint : String := "log-print"

/-- A daemon command callback, seen from the listener's dispatch: it
receives the argument byte and its `error` result is modelled by a
`Bool` (`true` = the callback returned a non-nil error). -/
abbrev DaemonCommandCallback := Nat → Bool

/-- Outcome of `handleConnection` on one accepted connection: the bytes it
wrote before the deferred `connection.Close()`, or an early return on a
read error, or a Go runtime panic. -/
inductive ConnOutcome where
  | wrote (bytes : List Nat)
  | readFailed
  | crashed
deriving DecidableEq, Repr

/-- The bytes a connection outcome delivered to the client. -/
def ConnOutcome.written : ConnOutcome → List Nat
  | .wrote bs => bs
  | .readFailed => []
  | .crashed => []

/-- Go `handleConnection` (src/daemon/listener.go lines 85-111).  `msg` is the
byte string delivered by `connection.Read` (`buf[:n]`); a failed read is
the `msg = []` case.  The command name is `buf[:n-1]` (`msg.dropLast`) and
the argument is `buf[n-1]` (the last byte).  The map lookup
`fn, ok := daemon.callbacks[...]` yields a nil `fn` when `ok` is false;
the source only logs in that case and still executes `fn(...)`, and in Go
calling a nil function value is a runtime panic — embedded as `.crashed`. -/
def handleConnection (callbacks : List Nat → Option DaemonCommandCallback)
    (msg : List Nat) : ConnOutcome :=
  if msg.isEmpty then .readFailed
  else
    match callbacks msg.dropLast with
    | some fn =>
        if fn (msg.getLastD 0) then .wrote [Failure] else .wrote [Success]
    | none => .crashed

/-- Go `GetRestartCallback` (src/daemon/callbacks.go): sends on the server
command channel and returns a nil error, unconditionally. -/
def GetRestartCallback : DaemonCommandCallback := fun _ => false

/-- Go `GetReloadCallback`: sends `ReloadSignal{}` and returns a nil error. -/
def GetReloadCallback : DaemonCommandCallback := fun _ => false

/-- Go `GetStopCallback`: sends `StopSignal{}` and returns a nil error. -/
def GetStopCallback : DaemonCommandCallback := fun _ => false

/-- The error result of the log-level callbacks
(`GetLogPrintCallback`/`GetLogRecordCallback`, src/daemon/callbacks.go):
both always `return nil`, even for an invalid level byte.  Their effect on
the log state is modelled separately in the `Logger` namespace. -/
def GetLogLevelCallbackErr : DaemonCommandCallback := fun _ => false

/-- The error result of the status callback: it always returns a status
byte, never a dispatch error (its byte value is `GetStatusCallback`
below). -/
def GetStatusCallbackErr : DaemonCommandCallback := fun _ => false

/-- The callback table registered by `DaemonMain` (src/daemon/proc.go
lines 66-73): the six wire commands, each bound to its callback.  Lookup
by the command-name bytes, as `daemon.callbacks[DaemonCommand(buf[:n-1])]`
does. -/
def daemonCallbacks : List Nat → Option DaemonCommandCallback := fun name =>
  if name = strBytes Restart then some GetRestartCallback
  else if name = strBytes Reload then some GetReloadCallback
  else if name = strBytes Stop then some GetStopCallback
  else if name = strBytes Status then some GetStatusCallbackErr
  else if name = strBytes LogRecord then some GetLogLevelCallbackErr
  else if name = strBytes LogPrint then some GetLogLevelCallbackErr
  else none

/-- Go `Ok WebbyStatus = WebbyStatus(Success)` (src/unnamed/part_009,
`WebbyStatus` const block, iota = 0): every GET gave 200. -/
def Ok : Nat := Success

/-- Go `HttpNon2xx = WebbyStatus(Failure) | ((iota + 1) << 1)` with iota = 1,
so the value is `1 ||| 4 = 5`: not every GET gave 200. -/
def HttpNon2xx : Nat := Failure ||| ((1 + 1) <<< 1)

/-- Go `HttpPartialFail` repeats the previous const expression with iota = 2,
so the value is `1 ||| 6 = 7`: some GETs gave a code >= 400. -/
def HttpPartialFail : Nat := Failure ||| ((2 + 1) <<< 1)

/-- Go `HttpFail` repeats the expression with iota = 3, so the value is
`1 ||| 8 = 9`: all GETs gave a code >= 400. -/
def HttpFail : Nat := Failure ||| ((3 + 1) <<< 1)

/-- The result of one `http.Get("http://localhost" + path)` in the status
probe: `none` models a request error (`err != nil`), `some c` a response
with status code `c`. -/
abbrev GetResult := Option Nat

/-- Whether one GET result increments `getsFailed` in `GetStatusCallback`:
a request error (the `continue` branch) or a status code >= 400. -/
def getFailed : GetResult → Bool
  | none => true
  | some c => 400 ≤ c

/-- Whether one GET result increments `getsNot200`: a response was
received (a request error skips this check via `continue`) and its status
code is not 200. -/
def getNot200 : GetResult → Bool
  | none => false
  | some c => c ≠ 200

/-- Go `getsFailed` after the loop of `GetStatusCallback`, given the GET
result for each element of `handler.ValidPaths`. -/
def getsFailed (rs : List GetResult) : Nat := rs.countP (getFailed ·)

/-- Go `getsNot200` after the loop of `GetStatusCallback`. -/
def getsNot200 (rs : List GetResult) : Nat := rs.countP (getNot200 ·)

/-- Go `GetStatusCallback` (src/unnamed/part_009 lines 220-265), as a function
of the GET result obtained for each routed path (`rs.length` is
`len(handler.ValidPaths)`): counts failed and non-200 gets, then returns
`HttpFail` if `getsFailed >= len(ValidPaths)`, else `HttpPartialFail` if
`getsFailed > 1`, else `HttpNon2xx` if `getsNot200 > 1`, else `Ok`. -/
def GetStatusCallback (rs : List GetResult) : Nat :=
  if rs.length ≤ getsFailed rs then HttpFail
  else if 1 < getsFailed rs then HttpPartialFail
  else if 1 < getsNot200 rs then HttpNon2xx
  else Ok

/-- State of a `DaemonListener` shared between the `Listen` goroutine and
the thread calling `Close` (src/daemon/listener.go): the `shuttingOff`
flag, whether the backing socket has been closed, the `sync.WaitGroup`
count of in-flight connection handlers, and whether `Close()` has
returned to its caller. -/
structure ListenerState where
  shuttingOff : Bool
  socketClosed : Bool
  inFlight : Nat
  closeReturned : Bool
deriving DecidableEq, Repr

/-- Go `Close` (src/daemon/listener.go lines 75-82), run to completion: it
sets `daemon.shuttingOff = true`, checks the socket for nil (logging
only), calls `daemon.socket.Close()` and returns.  The receive on
`shuttoffChannel` that would block until `Listen` finishes draining is
commented out in the source (`// _ = <-daemon.shuttoffChannel`), so the
body is straight-line code with no wait: it never touches the
`WaitGroup` counter. -/
def goClose (s : ListenerState) : ListenerState :=
  { s with shuttingOff := true, socketClosed := true, closeReturned := true }

/-- A lifecycle signal received from `signalChan` in `DaemonMain`
(src/daemon/proc.go): a `ReloadSignal{}` or `StopSignal{}` posted by a
command callback (or the change watcher), or an OS termination signal
registered by `signal.Notify(signalChan, syscall.SIGTERM, syscall.SIGINT)`. -/
inductive DaemonSignal where
  | reloadSignal
  | stopSignal
  | sigterm
  | sigint
deriving DecidableEq, Repr

/-- One teardown action performed by `DaemonMain` after receiving a
signal (src/daemon/proc.go lines 97-108). -/
inductive TeardownAction where
  | serverShutoff
  | closeCommandListener
  | stopServer
  | closeLog
deriving DecidableEq, Repr

/-- The tail of `DaemonMain` after `sig := <-signalChan`
(src/daemon/proc.go lines 97-115): it sends `server.Shutoff` on the
server command channel, closes the command listener, stops the server,
closes the log — unconditionally, in that order — and then re-enters the
`Start:` label (`goto Start`) exactly when the type assertion
`_, ok := sig.(ReloadSignal)` succeeds.  The returned flag is that `ok`:
`true` means the loop restarts into loading, `false` that `DaemonMain`
returns. -/
def daemonSignalStep (sig : DaemonSignal) :
    List TeardownAction × Bool :=
  ([TeardownAction.serverShutoff, TeardownAction.closeCommandListener,
    TeardownAction.stopServer, TeardownAction.closeLog],
   match sig with
   | .reloadSignal => true
   | _ => false)

end Daemon

namespace Logger

/-- Go `None LogLevel = 0` (logger package): show no logs. -/
def NoneLevel : Nat := 0

/-- Go `Err LogLevel = 1 << (iota - 1)` with iota = 1: bit 0. -/
def Err : Nat := 1

/-- Go `Warn`: the next bit, 2. -/
def Warn : Nat := 2

/-- Go `Info`: the next bit, 4. -/
def Info : Nat := 4

/-- Go `All = Err | Warn | Info`: all three bits, 7. -/
def All : Nat := Err ||| Warn ||| Info

/-- Go `CheckLogLevel` (logger package, src/unnamed/part_007 lines 77-83):
if the byte exceeds `All` it returns `All` together with an error
(modelled as the `Bool` component, `true` = non-nil error), otherwise the
byte itself with no error. -/
def CheckLogLevel (level : Nat) : Nat × Bool :=
  if All < level then (All, true)
  else (level, false)

/-- Go `LevelFromString` (logger package, src/unnamed/part_007 lines
60-73): parses a case-insensitive level name; unknown strings yield
`All` together with an error (the `Bool` component). -/
def LevelFromString (str : String) : Nat × Bool :=
  match str.toLower with
  | "none" | "n" => (NoneLevel, false)
  | "errors" | "error" | "err" | "e" => (Err, false)
  | "warnings" | "warning" | "warn" | "war" | "w" => (Err ||| Warn, false)
  | "information" | "info" | "inf" | "i" | "all" | "a" =>
      (Err ||| Warn ||| Info, false)
  | _ => (All, true)

/-- Go `Log` (logger package): the level bitmask printed to stdout
(`Printing`) and the level bitmask written to the log file (named
`Saving` in logger.go and assigned as `Recording` by the daemon
callbacks); the backing `*os.File` plays no role in the claims and is
omitted. -/
structure Log where
  Printing : Nat
  Recording : Nat
deriving DecidableEq, Repr

/-- Modelled from the spec: `Log.SetRecordLevelFromString` is called by
`DaemonMain` (src/daemon/proc.go line 41) but its definition is missing
from the provided sources (only callers appear).  Per the spec's
"validate/clamp log levels" step and the logger's one canonical
string-parsing function, it parses the string with `LevelFromString`,
stores the result as the log's file-recording level, and propagates the
parse error. -/
def SetRecordLevelFromString (log : Log) (str : String) : Log × Bool :=
  let r := LevelFromString str
  ({ log with Recording := r.1 }, r.2)

/-- Modelled from the spec: `Log.SetPrintLevelFromString` is called by
`DaemonMain` (src/daemon/proc.go line 48) but its definition is missing
from the provided sources.  Like `SetRecordLevelFromString`, but it
stores the parsed level as the log's printing level. -/
def SetPrintLevelFromString (log : Log) (str : String) : Log × Bool :=
  let r := LevelFromString str
  ({ log with Printing := r.1 }, r.2)

end Logger

namespace Server

/-- Go `ReadError FileChangeSignal = iota` (src/unnamed/part_004): a stat
of the watched file failed after the first poll. -/
def ReadError : Nat := 0

/-- Go `InitialReadError`: the stat before the poll loop failed. -/
def InitialReadError : Nat := 1

/-- Go `SizeChange`: the file's size differs from the previous poll. -/
def SizeChange : Nat := 2

/-- Go `TimeModifiedChange`: the modification time differs. -/
def TimeModifiedChange : Nat := 3

/-- The two fields of an `os.FileInfo` that `callOnChange` inspects:
`ModTime()` (an instant, abstracted to `Nat`) and `Size()`. -/
structure FileStat where
  modTime : Nat
  size : Nat
deriving DecidableEq, Repr

/-- Result of one `os.Stat(filePath)`: `none` models `err != nil`, in
which case the `currentStat` variable is a nil `os.FileInfo`. -/
abbrev StatResult := Option FileStat

/-- What the if-cascade of one `callOnChange` loop iteration does, given
`previousStat` (`none` = a nil `os.FileInfo` left over from a failed
stat) and the current stat result. -/
inductive PollAction where
  | signal (sig : Nat)
  | quiet
  | nilDeref
deriving DecidableEq, Repr

/-- One iteration of the `for` loop in `callOnChange` (src/unnamed/part_004
lines 214-231) up to the `Sleep` label: a failed stat reports `ReadError`;
otherwise the code evaluates `previousStat.ModTime()`, which is a nil
dereference (Go runtime panic) when the previous stat had failed; with
both stats present, a modification-time difference reports
`TimeModifiedChange`, else a size difference reports `SizeChange`, else
nothing is reported. -/
def pollStep (prev : StatResult) (cur : StatResult) : PollAction :=
  match cur with
  | none => .signal ReadError
  | some c =>
      match prev with
      | none => .nilDeref
      | some p =>
          if c.modTime ≠ p.modTime then .signal TimeModifiedChange
          else if c.size ≠ p.size then .signal SizeChange
          else .quiet

/-- Outcome of running `callOnChange` against a finite trace of stat
results: the function returned after the callback asked to terminate,
the trace was exhausted with the loop still alive, or the goroutine hit
the nil-`FileInfo` dereference.  `events` lists the signals delivered to
the callback, in order. -/
inductive WatchOutcome where
  | terminated (events : List Nat)
  | running (events : List Nat) (prev : StatResult)
  | crashed (events : List Nat)
deriving DecidableEq, Repr

/-- The signals delivered to the callback in a watch outcome. -/
def WatchOutcome.events : WatchOutcome → List Nat
  | .terminated es => es
  | .running es _ => es
  | .crashed es => es

/-- Prepends an already-delivered signal to an outcome's event list. -/
def WatchOutcome.withEvent (sig : Nat) : WatchOutcome → WatchOutcome
  | .terminated es => .terminated (sig :: es)
  | .running es p => .running (sig :: es) p
  | .crashed es => .crashed (sig :: es)

/-- The `for` loop of `callOnChange` (src/unnamed/part_004 lines 214-239)
over a finite trace of stat results.  `shouldRet` is the `shouldReturn`
variable as it stands when the iteration begins; when an if-branch fires
it is overwritten with the callback's return value, and the `Sleep` label
then returns if it is set.  `previousStat = currentStat` runs
unconditionally before the next iteration — including after a failed
stat, where it stores the nil `currentStat`. -/
def callOnChangeLoop (cb : Nat → Bool) (shouldRet : Bool) (prev : StatResult) :
    List StatResult → WatchOutcome
  | [] => .running [] prev
  | cur :: rest =>
      match pollStep prev cur with
      | .nilDeref => .crashed []
      | .quiet =>
          if shouldRet then .terminated []
          else callOnChangeLoop cb shouldRet cur rest
      | .signal sig =>
          if cb sig then .terminated [sig]
          else (callOnChangeLoop cb false cur rest).withEvent sig

/-- Go `callOnChange` (src/unnamed/part_004 lines 206-240): stats the file
once before the loop — a failure there delivers `InitialReadError` and
stores its return value in `shouldReturn`, which the loop only consults
at its `Sleep` label — then runs the poll loop.  `initialStat` is that
first stat's result, `polls` the stat results of the loop iterations. -/
def callOnChange (cb : Nat → Bool) (initialStat : StatResult)
    (polls : List StatResult) : WatchOutcome :=
  match initialStat with
  | none =>
      (callOnChangeLoop cb (cb InitialReadError) none polls).withEvent
        InitialReadError
  | some s => callOnChangeLoop cb false (some s) polls

/-- The two `ServerOptions` fields consumed by the log-level application
step of `DaemonMain` (src/server config, fields `LogLevelPrint` and
`LogLevelRecord`); the remaining configuration fields play no role in
the claims. -/
structure ServerOptions where
  LogLevelPrint : String
  LogLevelRecord : String
deriving DecidableEq, Repr

end Server

namespace Daemon

/-- Go `GetLogPrintCallback` (src/daemon/callbacks.go lines 85-97): runs
the argument byte through `CheckLogLevel` (which substitutes `All` for an
invalid byte), assigns the result to `log.Printing`, and returns a nil
error — so the listener answers the client with `Success`.  The second
component is that result byte. -/
def GetLogPrintCallback (log : Logger.Log) (arg : Nat) : Logger.Log × Nat :=
  let r := Logger.CheckLogLevel arg
  ({ log with Printing := r.1 }, Success)

/-- Go `GetLogRecordCallback` (src/daemon/callbacks.go lines 101-113):
like `GetLogPrintCallback` but assigns `log.Recording`. -/
def GetLogRecordCallback (log : Logger.Log) (arg : Nat) : Logger.Log × Nat :=
  let r := Logger.CheckLogLevel arg
  ({ log with Recording := r.1 }, Success)

/-- The log-level application step of `DaemonMain`'s loading phase
(src/daemon/proc.go lines 41-53): it calls
`log.SetRecordLevelFromString(opts.LogLevelPrint)` and then
`log.SetPrintLevelFromString(opts.LogLevelRecord)`, ignoring the returned
errors except for logging. -/
def daemonLoadLogLevels (log : Logger.Log) (opts : Server.ServerOptions) :
    Logger.Log :=
  let log1 := (Logger.SetRecordLevelFromString log opts.LogLevelPrint).1
  (Logger.SetPrintLevelFromString log1 opts.LogLevelRecord).1

end Daemon

/-- Auxiliary: prepending a delivered signal to a watch outcome prepends
it to the outcome's event list. -/
theorem WatchOutcome_events_withEvent (sig : Nat) (o : Server.WatchOutcome) :
    (o.withEvent sig).events = sig :: o.events := by
  cases o <;> rfl

/-- Auxiliary: the status callback only ever returns one of the four
`WebbyStatus` codes. -/
theorem statusResult_cases (rs : List Daemon.GetResult) :
    Daemon.GetStatusCallback rs = Daemon.Ok ∨
    Daemon.GetStatusCallback rs = Daemon.HttpNon2xx ∨
    Daemon.GetStatusCallback rs = Daemon.HttpPartialFail ∨
    Daemon.GetStatusCallback rs = Daemon.HttpFail := by
  unfold Daemon.GetStatusCallback
  split
  · exact Or.inr (Or.inr (Or.inr rfl))
  · split
    · exact Or.inr (Or.inr (Or.inl rfl))
    · split
      · exact Or.inr (Or.inl rfl)
      · exact Or.inl rfl

/-- C1: the claim says an unregistered command name (including the empty
name of a one-byte message) makes the connection handler write a Failure
byte without crashing.  On the code, the failed map lookup leaves `fn`
nil, the handler only logs and then calls `fn(...)`, which is a Go
runtime panic: against the table registered by `DaemonMain`, the message
"bogus"+arg and the one-byte message both crash the handling goroutine
(killing the process, hence the accept loop) and no Failure byte is
written. -/
theorem c1_unknown_command_crashes :
    Daemon.handleConnection Daemon.daemonCallbacks (strBytes "bogus" ++ [0]) =
      Daemon.ConnOutcome.crashed ∧
    Daemon.handleConnection Daemon.daemonCallbacks [0] =
      Daemon.ConnOutcome.crashed ∧
    Daemon.ConnOutcome.crashed ≠ Daemon.ConnOutcome.wrote [Daemon.Failure] :=
  ⟨rfl, rfl, by decide⟩

/-- C3: for every message whose command name is registered in the callback
table, `handleConnection` writes exactly one result byte — the byte is
`Failure` when the callback returns an error and `Success` otherwise —
before closing the connection. -/
theorem c3_wellformed_writes_one_byte
    (callbacks : List Nat → Option Daemon.DaemonCommandCallback)
    (msg : List Nat) (fn : Daemon.DaemonCommandCallback)
    (hne : msg ≠ []) (hreg : callbacks msg.dropLast = some fn) :
    (Daemon.handleConnection callbacks msg).written.length = 1 ∧
    (Daemon.handleConnection callbacks msg =
        Daemon.ConnOutcome.wrote [Daemon.Success] ∨
     Daemon.handleConnection callbacks msg =
        Daemon.ConnOutcome.wrote [Daemon.Failure]) := by
  have hempty : msg.isEmpty = false := by
    cases msg with
    | nil => exact absurd rfl hne
    | cons a l => rfl
  unfold Daemon.handleConnection
  rw [hempty, hreg]
  simp only [Bool.false_eq_true, if_false]
  cases hfn : fn (msg.getLastD 0) <;>
    simp [Daemon.ConnOutcome.written]

/-- Witness for C3: the well-formed message "restart" plus one argument
byte, against the table registered by `DaemonMain`, yields exactly one
written byte. -/
theorem c3_wellformed_writes_one_byte_witness :
    (Daemon.handleConnection Daemon.daemonCallbacks
        (strBytes Daemon.Restart ++ [0])).written.length = 1 ∧
    (Daemon.handleConnection Daemon.daemonCallbacks
        (strBytes Daemon.Restart ++ [0]) =
        Daemon.ConnOutcome.wrote [Daemon.Success] ∨
     Daemon.handleConnection Daemon.daemonCallbacks
        (strBytes Daemon.Restart ++ [0]) =
        Daemon.ConnOutcome.wrote [Daemon.Failure]) :=
  c3_wellformed_writes_one_byte Daemon.daemonCallbacks
    (strBytes Daemon.Restart ++ [0]) Daemon.GetRestartCallback
    (by decide) rfl

/-- Counterexample to C2 as stated: with two routed paths, one GET giving
500 (>= 400) and one giving 200 (< 400, so not all failing), the claim
requires `HttpPartialFail`; the code's `getsFailed > 1` threshold is not
met, `getsNot200 > 1` is not met either, and the callback returns `Ok`. -/
theorem c2_single_failure_counterexample :
    Daemon.GetStatusCallback [some 500, some 200] = Daemon.Ok ∧
    Daemon.Ok ≠ Daemon.HttpPartialFail := by
  constructor
  · rfl
  · decide

/-- C2 (amended): the status callback classifies the GET results as: all
responses 200 (and at least one path) yields `Ok`; every get failing
(request error or code >= 400) yields `HttpFail`; more than one get
failing, but not all, yields `HttpPartialFail`; at most one get failing
but more than one response with a code other than 200 yields
`HttpNon2xx`; no failures and at most one non-200 response yields `Ok`. -/
theorem c2_status_classification (rs : List Daemon.GetResult) :
    (rs ≠ [] → (∀ r ∈ rs, r = some 200) →
      Daemon.GetStatusCallback rs = Daemon.Ok) ∧
    ((∀ r ∈ rs, Daemon.getFailed r = true) →
      Daemon.GetStatusCallback rs = Daemon.HttpFail) ∧
    (1 < Daemon.getsFailed rs → Daemon.getsFailed rs < rs.length →
      Daemon.GetStatusCallback rs = Daemon.HttpPartialFail) ∧
    (Daemon.getsFailed rs ≤ 1 → 1 < Daemon.getsNot200 rs →
      Daemon.GetStatusCallback rs = Daemon.HttpNon2xx) ∧
    (rs ≠ [] → Daemon.getsFailed rs = 0 → Daemon.getsNot200 rs ≤ 1 →
      Daemon.GetStatusCallback rs = Daemon.Ok) := by
  refine ⟨?_, ?_, ?_, ?_, ?_⟩
  · intro hne h200
    have hf : Daemon.getsFailed rs = 0 := by
      refine List.countP_eq_zero.mpr ?_
      intro a ha
      rw [h200 a ha]
      decide
    have hn : Daemon.getsNot200 rs = 0 := by
      refine List.countP_eq_zero.mpr ?_
      intro a ha
      rw [h200 a ha]
      decide
    have hlen : 0 < rs.length := List.length_pos.mpr hne
    unfold Daemon.GetStatusCallback
    rw [hf, hn, if_neg (by omega), if_neg (by omega), if_neg (by omega)]
  · intro hall
    have hf : Daemon.getsFailed rs = rs.length :=
      List.countP_eq_length.mpr fun a ha => by rw [hall a ha]
    unfold Daemon.GetStatusCallback
    rw [if_pos (by omega)]
  · intro h1 h2
    unfold Daemon.GetStatusCallback
    rw [if_neg (by omega), if_pos h1]
  · intro h1 h2
    have hle : Daemon.getsNot200 rs ≤ rs.length := List.countP_le_length _
    unfold Daemon.GetStatusCallback
    rw [if_neg (by omega), if_neg (by omega), if_pos h2]
  · intro hne h0 h1
    have hlen : 0 < rs.length := List.length_pos.mpr hne
    unfold Daemon.GetStatusCallback
    rw [if_neg (by omega), if_neg (by omega), if_neg (by omega)]

/-- Witness for C2 (amended): concrete GET result lists hitting each
classification through the theorem. -/
theorem c2_status_classification_witness :
    Daemon.GetStatusCallback [some 200, some 200] = Daemon.Ok ∧
    Daemon.GetStatusCallback [some 500, none, some 200] =
      Daemon.HttpPartialFail ∧
    Daemon.GetStatusCallback [some 404, some 404] = Daemon.HttpFail ∧
    Daemon.GetStatusCallback [some 301, some 302, some 200] =
      Daemon.HttpNon2xx :=
  ⟨(c2_status_classification _).1 (by decide) (by decide),
   (c2_status_classification _).2.2.1 (by decide) (by decide),
   (c2_status_classification _).2.1 (by decide),
   (c2_status_classification _).2.2.2.1 (by decide) (by decide)⟩

/-- C4: bit 0 of a command result byte is a strict success/failure
discriminator: `Success` and `Ok` have bit 0 equal to 0, `Failure` and
the three non-`Ok` status codes have bit 0 equal to 1, the status
callback's result has bit 0 equal to `Success` exactly when it is `Ok`,
and the auxiliary status payload lives in the higher bits (the shifted
payloads 0, 2, 3, 4 distinguish the four codes). -/
theorem c4_bit0_discriminator :
    Daemon.Success &&& 1 = 0 ∧
    Daemon.Failure &&& 1 = 1 ∧
    Daemon.Ok &&& 1 = Daemon.Success ∧
    Daemon.HttpNon2xx &&& 1 = Daemon.Failure ∧
    Daemon.HttpPartialFail &&& 1 = Daemon.Failure ∧
    Daemon.HttpFail &&& 1 = Daemon.Failure ∧
    (∀ rs : List Daemon.GetResult,
      Daemon.GetStatusCallback rs &&& 1 = Daemon.Success ↔
        Daemon.GetStatusCallback rs = Daemon.Ok) ∧
    Daemon.Ok >>> 1 = 0 ∧ Daemon.HttpNon2xx >>> 1 = 2 ∧
    Daemon.HttpPartialFail >>> 1 = 3 ∧ Daemon.HttpFail >>> 1 = 4 := by
  refine ⟨by decide, by decide, by decide, by decide, by decide, by decide,
    ?_, by decide, by decide, by decide, by decide⟩
  intro rs
  rcases statusResult_cases rs with h | h | h | h <;> rw [h] <;> decide

/-- C5: the claim says `Close()` returns only after all in-flight
connection handlers have completed (a counted wait).  In the code the
receive on `shuttoffChannel` is commented out, so `Close` is
straight-line: called with one handler still in flight, it has returned
(`closeReturned`) while the `WaitGroup` count is still 1. -/
theorem c5_close_returns_without_drain :
    (Daemon.goClose
        { shuttingOff := false, socketClosed := false,
          inFlight := 1, closeReturned := false }).closeReturned = true ∧
    (Daemon.goClose
        { shuttingOff := false, socketClosed := false,
          inFlight := 1, closeReturned := false }).inFlight = 1 :=
  ⟨rfl, rfl⟩

/-- C6: whatever signal the lifecycle loop receives, `DaemonMain`
performs the identical teardown sequence (server shutoff, listener close,
server stop, log close), and it re-enters the loading phase exactly when
the signal is a `ReloadSignal`; `StopSignal` and the OS termination
signals terminate the loop. -/
theorem c6_teardown_identical_restart_iff_reload :
    ∀ sig sig' : Daemon.DaemonSignal,
      (Daemon.daemonSignalStep sig).1 = (Daemon.daemonSignalStep sig').1 ∧
      ((Daemon.daemonSignalStep sig).2 = true ↔
        sig = Daemon.DaemonSignal.reloadSignal) := by
  intro sig sig'
  refine ⟨rfl, ?_⟩
  cases sig <;> simp [Daemon.daemonSignalStep]

/-- C7: for every argument byte, the log-level handlers return `Success`;
a byte at most `All` (= 7) is stored exactly, a larger byte is replaced
by the most permissive level `All` instead of failing the command. -/
theorem c7_loglevel_handlers (log : Logger.Log) (b : Nat) :
    Logger.All = 7 ∧
    (Daemon.GetLogPrintCallback log b).2 = Daemon.Success ∧
    (Daemon.GetLogRecordCallback log b).2 = Daemon.Success ∧
    (Daemon.GetLogPrintCallback log b).1.Printing =
      (if b ≤ 7 then b else Logger.All) ∧
    (Daemon.GetLogRecordCallback log b).1.Recording =
      (if b ≤ 7 then b else Logger.All) := by
  have hA : Logger.All = 7 := by decide
  have h : ∀ n : Nat, (Logger.CheckLogLevel n).1 =
      if n ≤ 7 then n else Logger.All := by
    intro n
    unfold Logger.CheckLogLevel
    rw [hA]
    rcases le_or_lt n 7 with hn | hn
    · rw [if_neg (by omega), if_pos hn]
    · rw [if_pos (by omega), if_neg (by omega)]
  exact ⟨hA, rfl, rfl, h b, h b⟩

/-- C8: the claim says a transient stat failure never permanently
disables watching when the callback returns false for error signals.  In
the code, the failed poll stores the nil `currentStat` into
`previousStat`, so the next successful poll dereferences a nil
`os.FileInfo` and the watch goroutine crashes instead of staying able to
report a later change. -/
theorem c8_transient_stat_failure_crashes :
    Server.callOnChange (fun _ => false)
        (some { modTime := 0, size := 0 })
        [none, some { modTime := 1, size := 0 }] =
      Server.WatchOutcome.crashed [Server.ReadError] ∧
    Server.WatchOutcome.crashed [Server.ReadError] ≠
      Server.WatchOutcome.running
        [Server.ReadError, Server.TimeModifiedChange]
        (some { modTime := 1, size := 0 }) := by
  constructor
  · rfl
  · decide

/-- C9: in a poll where both the modification time and the size differ
from the previously observed stat, the watcher reports
`TimeModifiedChange`, not `SizeChange`, and delivers exactly that one
signal for the poll (the tail of the event list comes from the remaining
polls only). -/
theorem c9_timemodified_precedence (p c : Server.FileStat)
    (cb : Nat → Bool) (rest : List Server.StatResult)
    (hm : c.modTime ≠ p.modTime) (hs : c.size ≠ p.size) :
    Server.pollStep (some p) (some c) =
      Server.PollAction.signal Server.TimeModifiedChange ∧
    (Server.callOnChangeLoop cb false (some p) (some c :: rest)).events =
      Server.TimeModifiedChange ::
        (if cb Server.TimeModifiedChange then []
         else (Server.callOnChangeLoop cb false (some c) rest).events) := by
  have hstep : Server.pollStep (some p) (some c) =
      Server.PollAction.signal Server.TimeModifiedChange := by
    simp [Server.pollStep, hm]
  refine ⟨hstep, ?_⟩
  rw [Server.callOnChangeLoop, hstep]
  cases hcb : cb Server.TimeModifiedChange
  · simp only [hcb, Bool.false_eq_true, if_false, WatchOutcome_events_withEvent]
  · simp only [hcb, if_true]
    rfl

/-- Witness for C9: a concrete stat pair differing in both fields, with a
callback that terminates on the first signal. -/
theorem c9_timemodified_precedence_witness :
    Server.pollStep (some { modTime := 0, size := 0 })
        (some { modTime := 1, size := 1 }) =
      Server.PollAction.signal Server.TimeModifiedChange ∧
    (Server.callOnChangeLoop (fun _ => true) false
        (some { modTime := 0, size := 0 })
        (some { modTime := 1, size := 1 } :: [])).events =
      Server.TimeModifiedChange ::
        (if (fun _ : Nat => true) Server.TimeModifiedChange then []
         else (Server.callOnChangeLoop (fun _ => true) false
            (some { modTime := 1, size := 1 }) []).events) :=
  c9_timemodified_precedence { modTime := 0, size := 0 }
    { modTime := 1, size := 1 } (fun _ => true) [] (by decide) (by decide)

/-- C10: during the loading phase, `DaemonMain` stores the parse of the
configuration's `LogLevelPrint` string into the log's file-recording
level and the parse of `LogLevelRecord` into the printing level — each
setting lands on the other's target. -/
theorem c10_swapped_log_levels (log : Logger.Log)
    (opts : Server.ServerOptions) :
    (Daemon.daemonLoadLogLevels log opts).Recording =
      (Logger.LevelFromString opts.LogLevelPrint).1 ∧
    (Daemon.daemonLoadLogLevels log opts).Printing =
      (Logger.LevelFromString opts.LogLevelRecord).1 :=
  ⟨rfl, rfl⟩

end Webby
